import Mathlib

/-!
# Verification of `browser-session-tabs` (`BrowserTabTracker`)

A shallow embedding of `src/browser-tab-tracker/index.ts`.  The tracker
resolves, at initialization time, a per-tab identity (`tab`) and a
per-session identity (`id`), reading and writing two external key-value
stores: the per-tab store (`sessionStorage…` methods of the storage
service) and the cross-tab store (`sessionCookie…` methods).

Stores are modelled as association lists from string keys to stored
`SessionInfo` records (the only value type the tracker ever stores).
Mutation of the tracker instance and of the two stores is made explicit
by threading a `TrackerState` and a `World` through each operation, and
observable effects (store reads/writes, generator and callback
invocations, hook registration) are recorded in an event trace.
JavaScript exceptions are modelled as an `Option InitError` result field
(for `initialize`) and an `Option` result (for the unload handler);
state mutations performed before a throw are preserved, as in JS.
-/

/-- The record stored in both stores: `{ id: T; tab: number }`.
`tab` is modelled as `Int` (JS numbers; the unload handler can in
principle drive it below zero). -/
structure SessionInfo (T : Type) where
  id : T
  tab : Int
deriving DecidableEq, Repr

/-- A key-value store holding `SessionInfo` records, as an association
list; later entries are shadowed by earlier ones. -/
def Store (T : Type) : Type := List (String × SessionInfo T)

instance {T : Type} [DecidableEq T] : DecidableEq (Store T) := by
  unfold Store; infer_instance

/-- Read a record at a key; `none` models the absent sentinel
(`null`/`undefined`) returned by the storage service. -/
def storeGet {T : Type} (s : Store T) (k : String) : Option (SessionInfo T) :=
  (s.find? (fun p => p.1 = k)).map (fun p => p.2)

/-- Overwrite the record at a key unconditionally. -/
def storeSet {T : Type} (s : Store T) (k : String) (v : SessionInfo T) : Store T :=
  (k, v) :: s.filter (fun p => p.1 ≠ k)

/-- The two external stores seen by a tab: the per-tab store
(`sessionStorage`) and the cross-tab store (cookies). -/
structure World (T : Type) where
  sessionStorage : Store T
  cookieStore : Store T
deriving DecidableEq

/-- Observable effects of the tracker, in order of occurrence. -/
inductive Event (T : Type) where
  /-- `storageService.sessionStorageGet(key)` returned `r`. -/
  | ssGet (key : String) (r : Option (SessionInfo T))
  /-- `storageService.sessionStorageSet(key, v)`. -/
  | ssSet (key : String) (v : SessionInfo T)
  /-- `storageService.sessionCookieGet(key)` returned `r`. -/
  | cookieGet (key : String) (r : Option (SessionInfo T))
  /-- `storageService.sessionCookieSet(key, v)`. -/
  | cookieSet (key : String) (v : SessionInfo T)
  /-- `sessionIdGenerator()` was invoked and returned `v`. -/
  | generatorCalled (v : T)
  /-- `sessionStartedCallback(id, tab)` was invoked. -/
  | sessionStarted (id : T) (tab : Int)
  /-- `newTabOpenedCallback(tab)` was invoked. -/
  | newTabOpened (tab : Int)
  /-- `window.onbeforeunload` was (re)assigned by `listenOnTabCloseEvent`. -/
  | hookRegistered
deriving DecidableEq, Repr

/-- `const DEFAULT_STORAGE_KEY = 'browser-session-info'`. -/
def DEFAULT_STORAGE_KEY : String := "browser-session-info"

/-- Membership of a character in the JavaScript `\s` class, as used by
`REGEX_EMPTY_STRING = /^\s*$/`. -/
def jsIsSpace (c : Char) : Bool :=
  c = ' ' || c = '\t' || c = '\n' || c = '\x0b' || c = '\x0c' || c = '\r' ||
  c.val = 0x00A0 || c.val = 0x1680 ||
  (0x2000 <= c.val && c.val <= 0x200A) ||
  c.val = 0x2028 || c.val = 0x2029 || c.val = 0x202F || c.val = 0x205F ||
  c.val = 0x3000 || c.val = 0xFEFF

/-- `REGEX_EMPTY_STRING.test(key)`: the whole string consists of
whitespace characters (true for the empty string as well, since the
regex is `/^\s*$/`). -/
def regexEmptyStringTest (s : String) : Bool :=
  s.data.all jsIsSpace

/-- The mutable fields of a `BrowserTabTracker<T>` instance.  The
`null as any` initial values of the source become `none` / `false`;
the two optional callbacks are opaque void functions, so only their
presence (JS truthiness) is modelled. -/
structure TrackerState (T : Type) where
  storageKeyName : String := DEFAULT_STORAGE_KEY
  sessionInfo : Option (SessionInfo T) := none
  sessionIdGenerator : Option (Unit → T) := none
  sessionStartedCallback : Bool := false
  newTabOpenedCallback : Bool := false
  newSessionCreated : Bool := false

/-- The `options` argument of `initialize`.  `storageKey := some ""`
models passing an explicit empty string (distinct from omitting the
option), which matters because `if (options.storageKey)` tests JS
truthiness. -/
structure Config (T : Type) where
  sessionIdGenerator : Option (Unit → T)
  sessionStartedCallback : Bool := false
  newTabOpenedCallback : Bool := false
  storageKey : Option String := none

/-- The errors `initialize` can throw. -/
inductive InitError where
  /-- `'Session ID generator not set'` (the spec's `ConfigurationError`). -/
  | configurationError
  /-- `'Invalid storage key'` (the spec's `InvalidKeyError`). -/
  | invalidKeyError
deriving DecidableEq, Repr

/-- Outcome of a call to `initialize`: the thrown error if any, the
tracker state and world after the call (mutations before a throw are
kept, as in JS), and the trace of observable effects. -/
structure InitResult (T : Type) where
  error : Option InitError
  state : TrackerState T
  world : World T
  trace : List (Event T)

/-- `validateKey`: throws `'Invalid storage key'` iff the key is falsy
(empty string) or matches `/^\s*$/`. -/
def validateKey (key : String) : Option InitError :=
  if key = "" || regexEmptyStringTest key then some .invalidKeyError else none

/-- `validateSessionIdGenerator`: throws iff the generator is falsy. -/
def validateSessionIdGenerator {T : Type} (g : Option (Unit → T)) : Option InitError :=
  match g with
  | none => some .configurationError
  | some _ => none

/-- `startNewSession`: sets `newSessionCreated`, mints an id with the
generator and returns `{ id, tab: 0 }`.  The generator argument is the
`sessionIdGenerator` field, which is non-null whenever this private
method runs. -/
def startNewSession {T : Type} (g : Unit → T) (s : TrackerState T) :
    TrackerState T × SessionInfo T × List (Event T) :=
  let v := g ()
  ({ s with newSessionCreated := true }, { id := v, tab := 0 },
   [Event.generatorCalled v])

/-- `generateNewTabId`: reads the cross-tab store; on miss starts a new
session; increments the tab count; fires `newTabOpenedCallback` when
configured; writes the record to the cross-tab store then to the
per-tab store. -/
def generateNewTabId {T : Type} (g : Unit → T) (s : TrackerState T) (w : World T) :
    TrackerState T × SessionInfo T × World T × List (Event T) :=
  let r := storeGet w.cookieStore s.storageKeyName
  let step : TrackerState T × SessionInfo T × List (Event T) :=
    match r with
    | some si => (s, si, [])
    | none => startNewSession g s
  let s1 := step.1
  let si1 : SessionInfo T := { step.2.1 with tab := step.2.1.tab + 1 }
  let evCb : List (Event T) :=
    if s1.newTabOpenedCallback then [Event.newTabOpened si1.tab] else []
  let w1 : World T :=
    { sessionStorage := storeSet w.sessionStorage s.storageKeyName si1,
      cookieStore := storeSet w.cookieStore s.storageKeyName si1 }
  (s1, si1, w1,
   Event.cookieGet s.storageKeyName r :: step.2.2 ++ evCb ++
     [Event.cookieSet s.storageKeyName si1, Event.ssSet s.storageKeyName si1])

/-- `generateSessionInfo`: reads the per-tab store; on hit adopts the
record unchanged; on miss delegates to `generateNewTabId`. -/
def generateSessionInfo {T : Type} (g : Unit → T) (s : TrackerState T) (w : World T) :
    TrackerState T × SessionInfo T × World T × List (Event T) :=
  let r := storeGet w.sessionStorage s.storageKeyName
  match r with
  | some si => (s, si, w, [Event.ssGet s.storageKeyName (some si)])
  | none =>
    let out := generateNewTabId g s w
    (out.1, out.2.1, out.2.2.1,
     Event.ssGet s.storageKeyName none :: out.2.2.2)

/-- The body of the closure installed by `listenOnTabCloseEvent` on
`window.onbeforeunload`: reads the **per-tab** store at the current
key, decrements `tab`, writes the record to the cross-tab store then
the per-tab store.  `none` models the `TypeError` thrown by
`sessionInfo.tab` when the read returns the absent sentinel. -/
def unloadHandler {T : Type} (s : TrackerState T) (w : World T) : Option (World T) :=
  match storeGet w.sessionStorage s.storageKeyName with
  | none => none
  | some si =>
    let si' : SessionInfo T := { si with tab := si.tab - 1 }
    some { sessionStorage := storeSet w.sessionStorage s.storageKeyName si',
           cookieStore := storeSet w.cookieStore s.storageKeyName si' }

/-- `initialize(options)`: resolves the session info once (the whole
body is guarded by `if (!this.sessionInfo)`), then (re)registers the
unload hook.  Thrown errors are surfaced in `InitResult.error`, with
any field assignments made before the throw preserved. -/
def initTracker {T : Type} (s : TrackerState T) (cfg : Config T) (w : World T) :
    InitResult T :=
  if s.sessionInfo.isSome then
    { error := none, state := s, world := w, trace := [Event.hookRegistered] }
  else
    match cfg.sessionIdGenerator with
    | none => { error := some .configurationError, state := s, world := w, trace := [] }
    | some g =>
      let s1 : TrackerState T :=
        { s with sessionIdGenerator := some g,
                 sessionStartedCallback := cfg.sessionStartedCallback,
                 newTabOpenedCallback := cfg.newTabOpenedCallback }
      -- `if (options.storageKey)`: skipped when the option is absent
      -- or the supplied string is falsy (empty)
      let keyStep : Option InitError × TrackerState T :=
        match cfg.storageKey with
        | some k =>
          if k ≠ "" then
            match validateKey k with
            | some e => (some e, s1)
            | none => (none, { s1 with storageKeyName := k })
          else (none, s1)
        | none => (none, s1)
      match keyStep.1 with
      | some e => { error := some e, state := keyStep.2, world := w, trace := [] }
      | none =>
        let s2 := keyStep.2
        let out := generateSessionInfo g s2 w
        let si := out.2.1
        let s3 : TrackerState T := { out.1 with sessionInfo := some si }
        let evStarted : List (Event T) :=
          if s3.newSessionCreated && s3.sessionStartedCallback then
            [Event.sessionStarted si.id si.tab]
          else []
        { error := none, state := s3, world := out.2.2.1,
          trace := out.2.2.2 ++ evStarted ++ [Event.hookRegistered] }

/-- The `sessionStarted` events of a trace, as `(id, tab)` pairs. -/
def traceSessionStarted {T : Type} : List (Event T) → List (T × Int)
  | [] => []
  | Event.sessionStarted i t :: es => (i, t) :: traceSessionStarted es
  | _ :: es => traceSessionStarted es

/-- The `newTabOpened` events of a trace, as tab numbers. -/
def traceNewTabOpened {T : Type} : List (Event T) → List Int
  | [] => []
  | Event.newTabOpened t :: es => t :: traceNewTabOpened es
  | _ :: es => traceNewTabOpened es

/-- The values returned by the generator across a trace (its number of
invocations is the length). -/
def traceGeneratorCalls {T : Type} : List (Event T) → List T
  | [] => []
  | Event.generatorCalled v :: es => v :: traceGeneratorCalls es
  | _ :: es => traceGeneratorCalls es

/-- The store writes (`ssSet`/`cookieSet`) of a trace. -/
def traceWrites {T : Type} : List (Event T) → List (Event T)
  | [] => []
  | Event.ssSet k v :: es => Event.ssSet k v :: traceWrites es
  | Event.cookieSet k v :: es => Event.cookieSet k v :: traceWrites es
  | _ :: es => traceWrites es

/-! ## Helper lemmas -/

/-- Reading back a key just written returns the written value. -/
theorem storeGet_storeSet_self {T : Type} (s : Store T) (k : String) (v : SessionInfo T) :
    storeGet (storeSet s k v) k = some v := by
  simp [storeGet, storeSet, List.find?]

/-! ## Claims -/

/-- C7: `initialize` is idempotent: on a tracker whose session record is
already resolved, a further call (with any config) leaves the state, the
stores and the effective storage key untouched, performs no store reads
or writes, invokes no callback and not the generator, and only
re-registers the unload hook. -/
theorem initTracker_idempotent {T : Type} (s : TrackerState T) (cfg : Config T)
    (w : World T) (si : SessionInfo T) (h : s.sessionInfo = some si) :
    initTracker s cfg w =
      { error := none, state := s, world := w, trace := [Event.hookRegistered] } := by
  simp [initTracker, h]

/-- Witness for C7: a tracker resolved at `{id := 7, tab := 1}` by a
first call to `initialize` is untouched by a second call. -/
theorem initTracker_idempotent_witness :
    (initTracker (T := Nat) {} ⟨some (fun _ => 7), true, true, none⟩ ⟨[], []⟩).state.sessionInfo =
      some ⟨7, 1⟩ ∧
    initTracker
      (initTracker (T := Nat) {} ⟨some (fun _ => 7), true, true, none⟩ ⟨[], []⟩).state
      ⟨some (fun _ => 9), true, true, some "other-key"⟩
      (initTracker (T := Nat) {} ⟨some (fun _ => 7), true, true, none⟩ ⟨[], []⟩).world =
      { error := none,
        state := (initTracker (T := Nat) {} ⟨some (fun _ => 7), true, true, none⟩ ⟨[], []⟩).state,
        world := (initTracker (T := Nat) {} ⟨some (fun _ => 7), true, true, none⟩ ⟨[], []⟩).world,
        trace := [Event.hookRegistered] } :=
  ⟨rfl, initTracker_idempotent _ _ _ ⟨7, 1⟩ rfl⟩

/-- C8: with no `sessionIdGenerator` in the config, `initialize` on an
uninitialized tracker throws `ConfigurationError` with an empty effect
trace (so before any store read or write), leaving the tracker state
and both stores unchanged. -/
theorem initTracker_missing_generator {T : Type} (s : TrackerState T) (cfg : Config T)
    (w : World T) (h0 : s.sessionInfo = none) (hg : cfg.sessionIdGenerator = none) :
    initTracker s cfg w =
      { error := some .configurationError, state := s, world := w, trace := [] } := by
  simp [initTracker, h0, hg]

/-- Witness for C8: a fresh tracker with a generator-less config. -/
theorem initTracker_missing_generator_witness :
    (TrackerState.sessionInfo (T := Nat) {}) = none ∧
    (Config.sessionIdGenerator (T := Nat) ⟨none, true, true, none⟩) = none ∧
    initTracker (T := Nat) {} ⟨none, true, true, none⟩ ⟨[], []⟩ =
      { error := some .configurationError, state := {}, world := ⟨[], []⟩, trace := [] } :=
  ⟨rfl, rfl, initTracker_missing_generator _ _ _ rfl rfl⟩

/-- C6: when the per-tab store holds a record `{id := S, tab := n}` at
the storage key, `initialize` (on a fresh tracker, with no storage-key
override so the key in use is the tracker's) adopts exactly that record
as the resolved identity, with zero `sessionStartedCallback` calls,
zero `newTabOpenedCallback` calls and zero generator calls. -/
theorem initTracker_reload {T : Type} (s : TrackerState T) (g : Unit → T)
    (b1 b2 : Bool) (w : World T) (si : SessionInfo T)
    (h0 : s.sessionInfo = none) (hns : s.newSessionCreated = false)
    (h1 : storeGet w.sessionStorage s.storageKeyName = some si) :
    (initTracker s ⟨some g, b1, b2, none⟩ w).error = none ∧
    (initTracker s ⟨some g, b1, b2, none⟩ w).state.sessionInfo = some si ∧
    traceSessionStarted (initTracker s ⟨some g, b1, b2, none⟩ w).trace = [] ∧
    traceNewTabOpened (initTracker s ⟨some g, b1, b2, none⟩ w).trace = [] ∧
    traceGeneratorCalls (initTracker s ⟨some g, b1, b2, none⟩ w).trace = [] := by
  simp [initTracker, generateSessionInfo, h0, h1, hns,
    traceSessionStarted, traceNewTabOpened, traceGeneratorCalls]

/-- Witness for C6: a fresh tracker reloading a tab stored as
`{id := 7, tab := 2}`. -/
theorem initTracker_reload_witness :
    (TrackerState.sessionInfo (T := Nat) {}) = none ∧
    (TrackerState.newSessionCreated (T := Nat) {}) = false ∧
    storeGet [(DEFAULT_STORAGE_KEY, (⟨7, 2⟩ : SessionInfo Nat))]
      (TrackerState.storageKeyName (T := Nat) {}) = some ⟨7, 2⟩ ∧
    ((initTracker (T := Nat) {} ⟨some (fun _ => 9), true, true, none⟩
        ⟨[(DEFAULT_STORAGE_KEY, ⟨7, 2⟩)], []⟩).error = none ∧
     (initTracker (T := Nat) {} ⟨some (fun _ => 9), true, true, none⟩
        ⟨[(DEFAULT_STORAGE_KEY, ⟨7, 2⟩)], []⟩).state.sessionInfo = some ⟨7, 2⟩ ∧
     traceSessionStarted (initTracker (T := Nat) {} ⟨some (fun _ => 9), true, true, none⟩
        ⟨[(DEFAULT_STORAGE_KEY, ⟨7, 2⟩)], []⟩).trace = [] ∧
     traceNewTabOpened (initTracker (T := Nat) {} ⟨some (fun _ => 9), true, true, none⟩
        ⟨[(DEFAULT_STORAGE_KEY, ⟨7, 2⟩)], []⟩).trace = [] ∧
     traceGeneratorCalls (initTracker (T := Nat) {} ⟨some (fun _ => 9), true, true, none⟩
        ⟨[(DEFAULT_STORAGE_KEY, ⟨7, 2⟩)], []⟩).trace = []) :=
  ⟨rfl, rfl, by decide, initTracker_reload _ _ _ _ _ ⟨7, 2⟩ rfl rfl (by decide)⟩

/-- C10: on the reload path (per-tab store holds a record at the
storage key), `initialize` performs no write to either store: the
resulting world is exactly the input world. -/
theorem initTracker_reload_no_writes {T : Type} (s : TrackerState T) (g : Unit → T)
    (b1 b2 : Bool) (w : World T) (si : SessionInfo T)
    (h0 : s.sessionInfo = none)
    (h1 : storeGet w.sessionStorage s.storageKeyName = some si) :
    (initTracker s ⟨some g, b1, b2, none⟩ w).world = w ∧
    traceWrites (initTracker s ⟨some g, b1, b2, none⟩ w).trace = [] := by
  unfold initTracker generateSessionInfo
  simp only [h0, h1]
  cases hb : s.newSessionCreated && b1 <;>
    simp [traceWrites, traceWrites, hb]

/-- Witness for C10: reload with per-tab record `{id := 7, tab := 2}`
leaves both stores exactly as they were. -/
theorem initTracker_reload_no_writes_witness :
    (TrackerState.sessionInfo (T := Nat) {}) = none ∧
    storeGet [(DEFAULT_STORAGE_KEY, (⟨7, 2⟩ : SessionInfo Nat))]
      (TrackerState.storageKeyName (T := Nat) {}) = some ⟨7, 2⟩ ∧
    ((initTracker (T := Nat) {} ⟨some (fun _ => 9), true, true, none⟩
        ⟨[(DEFAULT_STORAGE_KEY, ⟨7, 2⟩)], [(DEFAULT_STORAGE_KEY, ⟨7, 5⟩)]⟩).world =
      ⟨[(DEFAULT_STORAGE_KEY, ⟨7, 2⟩)], [(DEFAULT_STORAGE_KEY, ⟨7, 5⟩)]⟩ ∧
     traceWrites (initTracker (T := Nat) {} ⟨some (fun _ => 9), true, true, none⟩
        ⟨[(DEFAULT_STORAGE_KEY, ⟨7, 2⟩)], [(DEFAULT_STORAGE_KEY, ⟨7, 5⟩)]⟩).trace = []) :=
  ⟨rfl, by decide, initTracker_reload_no_writes _ _ _ _ _ ⟨7, 2⟩ rfl (by decide)⟩

/-- C4: with both stores empty at the storage key (fresh tracker, no
storage-key override, both callbacks configured), `initialize` calls
the generator exactly once, resolves the tab count to 1, fires
`sessionStartedCallback` exactly once with the minted id and 1, and
fires `newTabOpenedCallback` exactly once with 1. -/
theorem initTracker_first_tab {T : Type} (s : TrackerState T) (g : Unit → T)
    (w : World T)
    (h0 : s.sessionInfo = none)
    (h1 : storeGet w.sessionStorage s.storageKeyName = none)
    (h2 : storeGet w.cookieStore s.storageKeyName = none) :
    (initTracker s ⟨some g, true, true, none⟩ w).error = none ∧
    traceGeneratorCalls (initTracker s ⟨some g, true, true, none⟩ w).trace = [g ()] ∧
    (initTracker s ⟨some g, true, true, none⟩ w).state.sessionInfo = some ⟨g (), 1⟩ ∧
    traceSessionStarted (initTracker s ⟨some g, true, true, none⟩ w).trace = [(g (), 1)] ∧
    traceNewTabOpened (initTracker s ⟨some g, true, true, none⟩ w).trace = [1] := by
  simp [initTracker, generateSessionInfo, generateNewTabId, startNewSession,
    h0, h1, h2, traceSessionStarted, traceNewTabOpened, traceGeneratorCalls]

/-- Witness for C4: first-ever tab with generator minting 7. -/
theorem initTracker_first_tab_witness :
    (TrackerState.sessionInfo (T := Nat) {}) = none ∧
    storeGet ([] : Store Nat) (TrackerState.storageKeyName (T := Nat) {}) = none ∧
    storeGet ([] : Store Nat) (TrackerState.storageKeyName (T := Nat) {}) = none ∧
    ((initTracker (T := Nat) {} ⟨some (fun _ => 7), true, true, none⟩ ⟨[], []⟩).error = none ∧
     traceGeneratorCalls
       (initTracker (T := Nat) {} ⟨some (fun _ => 7), true, true, none⟩ ⟨[], []⟩).trace = [7] ∧
     (initTracker (T := Nat) {} ⟨some (fun _ => 7), true, true, none⟩
        ⟨[], []⟩).state.sessionInfo = some ⟨7, 1⟩ ∧
     traceSessionStarted
       (initTracker (T := Nat) {} ⟨some (fun _ => 7), true, true, none⟩ ⟨[], []⟩).trace = [(7, 1)] ∧
     traceNewTabOpened
       (initTracker (T := Nat) {} ⟨some (fun _ => 7), true, true, none⟩ ⟨[], []⟩).trace = [1]) :=
  ⟨rfl, rfl, rfl, initTracker_first_tab _ _ _ rfl rfl rfl⟩

/-- C5: with the per-tab store empty and the cross-tab store holding
`{id := S, tab := 1}` at the storage key (fresh tracker, no
storage-key override, both callbacks configured), `initialize`
resolves `{id := S, tab := 2}`, does not fire
`sessionStartedCallback`, fires `newTabOpenedCallback` exactly once
with 2, and leaves both stores holding `{id := S, tab := 2}` at the
key. -/
theorem initTracker_second_tab {T : Type} (s : TrackerState T) (g : Unit → T)
    (S : T) (w : World T)
    (h0 : s.sessionInfo = none) (hns : s.newSessionCreated = false)
    (h1 : storeGet w.sessionStorage s.storageKeyName = none)
    (h2 : storeGet w.cookieStore s.storageKeyName = some ⟨S, 1⟩) :
    (initTracker s ⟨some g, true, true, none⟩ w).error = none ∧
    (initTracker s ⟨some g, true, true, none⟩ w).state.sessionInfo = some ⟨S, 2⟩ ∧
    traceSessionStarted (initTracker s ⟨some g, true, true, none⟩ w).trace = [] ∧
    traceNewTabOpened (initTracker s ⟨some g, true, true, none⟩ w).trace = [2] ∧
    storeGet (initTracker s ⟨some g, true, true, none⟩ w).world.sessionStorage
      s.storageKeyName = some ⟨S, 2⟩ ∧
    storeGet (initTracker s ⟨some g, true, true, none⟩ w).world.cookieStore
      s.storageKeyName = some ⟨S, 2⟩ := by
  simp [initTracker, generateSessionInfo, generateNewTabId, startNewSession,
    h0, h1, h2, hns, traceSessionStarted, traceNewTabOpened,
    storeGet_storeSet_self]

/-- Witness for C5: second tab joining session 7. -/
theorem initTracker_second_tab_witness :
    (TrackerState.sessionInfo (T := Nat) {}) = none ∧
    (TrackerState.newSessionCreated (T := Nat) {}) = false ∧
    storeGet ([] : Store Nat) (TrackerState.storageKeyName (T := Nat) {}) = none ∧
    storeGet [(DEFAULT_STORAGE_KEY, (⟨7, 1⟩ : SessionInfo Nat))]
      (TrackerState.storageKeyName (T := Nat) {}) = some ⟨7, 1⟩ ∧
    ((initTracker (T := Nat) {} ⟨some (fun _ => 9), true, true, none⟩
        ⟨[], [(DEFAULT_STORAGE_KEY, ⟨7, 1⟩)]⟩).error = none ∧
     (initTracker (T := Nat) {} ⟨some (fun _ => 9), true, true, none⟩
        ⟨[], [(DEFAULT_STORAGE_KEY, ⟨7, 1⟩)]⟩).state.sessionInfo = some ⟨7, 2⟩ ∧
     traceSessionStarted (initTracker (T := Nat) {} ⟨some (fun _ => 9), true, true, none⟩
        ⟨[], [(DEFAULT_STORAGE_KEY, ⟨7, 1⟩)]⟩).trace = [] ∧
     traceNewTabOpened (initTracker (T := Nat) {} ⟨some (fun _ => 9), true, true, none⟩
        ⟨[], [(DEFAULT_STORAGE_KEY, ⟨7, 1⟩)]⟩).trace = [2] ∧
     storeGet (initTracker (T := Nat) {} ⟨some (fun _ => 9), true, true, none⟩
        ⟨[], [(DEFAULT_STORAGE_KEY, ⟨7, 1⟩)]⟩).world.sessionStorage
        (TrackerState.storageKeyName (T := Nat) {}) = some ⟨7, 2⟩ ∧
     storeGet (initTracker (T := Nat) {} ⟨some (fun _ => 9), true, true, none⟩
        ⟨[], [(DEFAULT_STORAGE_KEY, ⟨7, 1⟩)]⟩).world.cookieStore
        (TrackerState.storageKeyName (T := Nat) {}) = some ⟨7, 2⟩) :=
  ⟨rfl, rfl, rfl, by decide, initTracker_second_tab _ _ 7 _ rfl rfl rfl (by decide)⟩

/-- `traceGeneratorCalls` distributes over concatenation. -/
theorem traceGeneratorCalls_append {T : Type} (l1 l2 : List (Event T)) :
    traceGeneratorCalls (l1 ++ l2) = traceGeneratorCalls l1 ++ traceGeneratorCalls l2 := by
  induction l1 with
  | nil => rfl
  | cons e es ih => cases e <;> simp [traceGeneratorCalls, ih]

/-- C9: on a fresh tracker (no storage-key override), a single call to
`initialize` invokes the generator at most once, and exactly once iff
both the per-tab and the cross-tab store are absent at the storage
key. -/
theorem initTracker_generator_at_most_once {T : Type} (s : TrackerState T)
    (g : Unit → T) (b1 b2 : Bool) (w : World T) (h0 : s.sessionInfo = none) :
    (traceGeneratorCalls (initTracker s ⟨some g, b1, b2, none⟩ w).trace).length ≤ 1 ∧
    ((traceGeneratorCalls (initTracker s ⟨some g, b1, b2, none⟩ w).trace).length = 1 ↔
      (storeGet w.sessionStorage s.storageKeyName = none ∧
       storeGet w.cookieStore s.storageKeyName = none)) := by
  rcases hss : storeGet w.sessionStorage s.storageKeyName with _ | si
  · rcases hck : storeGet w.cookieStore s.storageKeyName with _ | sj
    · cases hb : s.newSessionCreated <;>
        simp [initTracker, generateSessionInfo, generateNewTabId, startNewSession,
          h0, hss, hck, hb, traceGeneratorCalls, traceGeneratorCalls_append,
          apply_ite traceGeneratorCalls]
    · cases hb : s.newSessionCreated && b1 <;>
        simp [initTracker, generateSessionInfo, generateNewTabId,
          h0, hss, hck, hb, traceGeneratorCalls, traceGeneratorCalls_append,
          apply_ite traceGeneratorCalls]
  · cases hb : s.newSessionCreated && b1 <;>
      simp [initTracker, generateSessionInfo, h0, hss, hb,
        traceGeneratorCalls, traceGeneratorCalls_append,
        apply_ite traceGeneratorCalls]

/-- Witness for C9: a fresh tracker over empty stores calls the
generator exactly once. -/
theorem initTracker_generator_at_most_once_witness :
    (TrackerState.sessionInfo (T := Nat) {}) = none ∧
    ((traceGeneratorCalls
        (initTracker (T := Nat) {} ⟨some (fun _ => 7), true, false, none⟩
          ⟨[], []⟩).trace).length ≤ 1 ∧
     ((traceGeneratorCalls
        (initTracker (T := Nat) {} ⟨some (fun _ => 7), true, false, none⟩
          ⟨[], []⟩).trace).length = 1 ↔
       (storeGet ([] : Store Nat) (TrackerState.storageKeyName (T := Nat) {}) = none ∧
        storeGet ([] : Store Nat) (TrackerState.storageKeyName (T := Nat) {}) = none))) :=
  ⟨rfl, initTracker_generator_at_most_once _ _ _ _ _ rfl⟩

/-- The tracker-state component of `generateSessionInfo` never changes
the storage key. -/
theorem generateSessionInfo_storageKeyName {T : Type} (g : Unit → T)
    (s : TrackerState T) (w : World T) :
    (generateSessionInfo g s w).1.storageKeyName = s.storageKeyName := by
  unfold generateSessionInfo generateNewTabId startNewSession
  rcases storeGet w.sessionStorage s.storageKeyName with _ | si <;>
    rcases storeGet w.cookieStore s.storageKeyName with _ | sj <;> rfl

/-- C2 counterexample: an empty-string storage-key override does NOT
raise `InvalidKeyError`: `if (options.storageKey)` is false for the
falsy empty string, so `validateKey` is never reached and `initialize`
completes without an error (key left at its default). -/
theorem initTracker_emptyKey_counterexample :
    (initTracker (T := Nat) {} ⟨some (fun _ => 7), false, false, some ""⟩
       ⟨[], []⟩).error = none ∧
    (initTracker (T := Nat) {} ⟨some (fun _ => 7), false, false, some ""⟩
       ⟨[], []⟩).state.storageKeyName = DEFAULT_STORAGE_KEY :=
  ⟨rfl, rfl⟩

/-- C2 (amended): a storage-key override that is non-empty but consists
only of whitespace characters makes `initialize` (on a fresh tracker)
throw `InvalidKeyError`, with the storage key, both stores and the
effect trace untouched; an empty-string override is silently ignored
instead: no error is thrown and the storage key is likewise
unchanged. -/
theorem initTracker_storageKey_validation {T : Type} (s : TrackerState T)
    (g : Unit → T) (b1 b2 : Bool) (k : String) (w : World T)
    (h0 : s.sessionInfo = none)
    (hk : k ≠ "") (hws : regexEmptyStringTest k = true) :
    ((initTracker s ⟨some g, b1, b2, some k⟩ w).error = some .invalidKeyError ∧
     (initTracker s ⟨some g, b1, b2, some k⟩ w).state.storageKeyName = s.storageKeyName ∧
     (initTracker s ⟨some g, b1, b2, some k⟩ w).world = w ∧
     (initTracker s ⟨some g, b1, b2, some k⟩ w).trace = []) ∧
    ((initTracker s ⟨some g, b1, b2, some ""⟩ w).error ≠ some .invalidKeyError ∧
     (initTracker s ⟨some g, b1, b2, some ""⟩ w).state.storageKeyName = s.storageKeyName) := by
  constructor
  · simp [initTracker, h0, validateKey, hk, hws]
  · constructor
    · simp [initTracker, h0]
    · simp [initTracker, h0, generateSessionInfo_storageKeyName]

/-- Witness for C2 (amended): the single-space override `" "` throws
`InvalidKeyError` on a fresh tracker; the empty override does not. -/
theorem initTracker_storageKey_validation_witness :
    (TrackerState.sessionInfo (T := Nat) {}) = none ∧
    (" " : String) ≠ "" ∧
    regexEmptyStringTest " " = true ∧
    (((initTracker (T := Nat) {} ⟨some (fun _ => 7), true, true, some " "⟩
         ⟨[], []⟩).error = some .invalidKeyError ∧
      (initTracker (T := Nat) {} ⟨some (fun _ => 7), true, true, some " "⟩
         ⟨[], []⟩).state.storageKeyName = TrackerState.storageKeyName (T := Nat) {} ∧
      (initTracker (T := Nat) {} ⟨some (fun _ => 7), true, true, some " "⟩
         ⟨[], []⟩).world = ⟨[], []⟩ ∧
      (initTracker (T := Nat) {} ⟨some (fun _ => 7), true, true, some " "⟩
         ⟨[], []⟩).trace = []) ∧
     ((initTracker (T := Nat) {} ⟨some (fun _ => 7), true, true, some ""⟩
         ⟨[], []⟩).error ≠ some .invalidKeyError ∧
      (initTracker (T := Nat) {} ⟨some (fun _ => 7), true, true, some ""⟩
         ⟨[], []⟩).state.storageKeyName = TrackerState.storageKeyName (T := Nat) {})) :=
  ⟨rfl, by decide, by decide,
   initTracker_storageKey_validation _ _ _ _ " " _ rfl (by decide) (by decide)⟩

/-- The run of C1's scenario: a fresh tracker joins an existing session
(cross-tab store `{id := 7, tab := 1}`) as its second tab, resolving
`{id := 7, tab := 2}` and writing it to both stores. -/
def staleCounterResolved : InitResult Nat :=
  initTracker {} ⟨some (fun _ => 7), false, false, none⟩
    ⟨[], [(DEFAULT_STORAGE_KEY, ⟨7, 1⟩)]⟩

/-- C1's world at unload time: a third tab has since pushed the
cross-tab record to `{id := 7, tab := 3}`; the per-tab store still
holds this tab's own `{id := 7, tab := 2}`. -/
def staleCounterWorld : World Nat :=
  ⟨staleCounterResolved.world.sessionStorage,
   storeSet staleCounterResolved.world.cookieStore DEFAULT_STORAGE_KEY ⟨7, 3⟩⟩

/-- C1 counterexample: in the claim's own scenario (resolved state
`{id := 7, tab := 2}`, cross-tab store since updated to
`{id := 7, tab := 3}`), the post-unload cross-tab value is
`{id := 7, tab := 1}` — not `{id := 7, tab := 2}` as the claim states —
because the unload hook reads the per-tab store (`sessionStorageGet`),
not the cross-tab store. -/
theorem unload_stale_crossTab_counterexample :
    staleCounterResolved.state.sessionInfo = some ⟨7, 2⟩ ∧
    storeGet staleCounterWorld.cookieStore DEFAULT_STORAGE_KEY = some ⟨7, 3⟩ ∧
    (unloadHandler staleCounterResolved.state staleCounterWorld).map
      (fun w => storeGet w.cookieStore DEFAULT_STORAGE_KEY) = some (some ⟨7, 1⟩) ∧
    (unloadHandler staleCounterResolved.state staleCounterWorld).map
      (fun w => storeGet w.cookieStore DEFAULT_STORAGE_KEY) ≠ some (some ⟨7, 2⟩) := by
  decide

/-- C1 (amended): triggering the unload hook reads the current record
from the **per-tab** store (not the cross-tab store), decrements its
`tabCount` by 1, and writes the decremented record back to both
stores; in the claim's scenario (resolved `{id := S, tab := 2}`,
cross-tab store since advanced to `{id := S, tab := 3}`), the
post-unload cross-tab value is therefore `{id := S, tab := 1}`. -/
theorem unloadHandler_decrements_perTab_record {T : Type} (s : TrackerState T)
    (w : World T) (si : SessionInfo T)
    (h : storeGet w.sessionStorage s.storageKeyName = some si) :
    unloadHandler s w =
      some ⟨storeSet w.sessionStorage s.storageKeyName ⟨si.id, si.tab - 1⟩,
            storeSet w.cookieStore s.storageKeyName ⟨si.id, si.tab - 1⟩⟩ := by
  simp [unloadHandler, h]

/-- Witness for C1 (amended), on the claim's scenario: the per-tab
record `{id := 7, tab := 2}` is read and written back decremented to
both stores, so the cross-tab store ends at `{id := 7, tab := 1}`. -/
theorem unloadHandler_decrements_perTab_record_witness :
    storeGet staleCounterWorld.sessionStorage
      staleCounterResolved.state.storageKeyName = some ⟨7, 2⟩ ∧
    unloadHandler staleCounterResolved.state staleCounterWorld =
      some ⟨storeSet staleCounterWorld.sessionStorage
              staleCounterResolved.state.storageKeyName ⟨7, 2 - 1⟩,
            storeSet staleCounterWorld.cookieStore
              staleCounterResolved.state.storageKeyName ⟨7, 2 - 1⟩⟩ :=
  ⟨by decide, unloadHandler_decrements_perTab_record _ _ ⟨7, 2⟩ (by decide)⟩

/-- C3 counterexample: on a resolved tracker whose per-tab store has no
record at the storage key, the unload hook throws (it dereferences
`.tab` on the absent sentinel), modelled as `none` — refuting the
claim that the hook never raises for any store content. -/
theorem unloadHandler_throws_on_absent_record :
    unloadHandler (T := Nat)
      ⟨DEFAULT_STORAGE_KEY, some ⟨7, 1⟩, some (fun _ => 7), false, false, true⟩
      ⟨[], []⟩ = none := rfl

/-- C3 (amended): the unload hook raises an error exactly when the
per-tab store holds no record at the storage key; whenever a record is
present there, it completes without raising. -/
theorem unloadHandler_error_iff_absent {T : Type} (s : TrackerState T) (w : World T) :
    unloadHandler s w = none ↔
      storeGet w.sessionStorage s.storageKeyName = none := by
  unfold unloadHandler
  rcases h : storeGet w.sessionStorage s.storageKeyName with _ | si <;> simp
